import Mathlib

/-!
kubernetes-leader-go, the host program `main.go`.

A shallow embedding of `src/main.go`: the election configuration that `main`
builds, the three callbacks it registers, and the order of the statements the
main goroutine executes.  The election coordinator itself lives in the
`client-go` library; the timing predicates the specification gives for it are
modelled from the specification and evaluated at the durations `main`
configures.
-/

namespace LeaderGo

/-! ## Go primitives used by `main.go` -/

/-- Go `time.Second`.  A `time.Duration` is a signed count of nanoseconds and
is modelled as an `Int`; the three products `main` forms are constant
expressions far below 2^63. -/
def Second : Int := 1000000000

/-- Go `os.Getenv`: the value of the variable, empty when it is not present. -/
def Getenv (environ : String → Option String) (key : String) : String :=
  match environ key with
  | some v => v
  | none => ""

/-! ## The host state the callbacks act on -/

/-- What the closures of `main` can touch: the captured `leader` flag and the
logger.  `leaderStuff` is bookkeeping of the model: the value of `leader` seen
at each entry into `DoLeaderStuff`. -/
structure HostState where
  leader : Int
  logged : List String
  leaderStuff : List Int
  deriving DecidableEq, Repr

/-- State at `var leader int32`: the zero value, nothing logged yet. -/
def initialState : HostState := { leader := 0, logged := [], leaderStuff := [] }

/-- Go `atomic.StoreInt32(&leader, v)`. -/
def StoreInt32 (v : Int) (s : HostState) : HostState := { s with leader := v }

/-- Go `log.Printf` once the format is expanded: one message to the logger. -/
def Printf (msg : String) (s : HostState) : HostState :=
  { s with logged := s.logged ++ [msg] }

/-- `DoLeaderStuff(ctx)`: the body is empty; the model notes the entry. -/
def DoLeaderStuff (s : HostState) : HostState :=
  { s with leaderStuff := s.leaderStuff ++ [s.leader] }

/-- Closure `OnStartedLeading` of `main` (lines 59-63). -/
def OnStartedLeading (podName : String) (s : HostState) : HostState :=
  DoLeaderStuff (Printf ("Pod " ++ podName ++ " now a leader") (StoreInt32 1 s))

/-- Closure `OnStoppedLeading` of `main` (lines 64-67). -/
def OnStoppedLeading (podName : String) (s : HostState) : HostState :=
  Printf ("Pod " ++ podName ++ " not a leader anymore") (StoreInt32 0 s)

/-- Closure `OnNewLeader` of `main` (lines 68-74).  The format argument of the
`log.Printf` call is `podName`, as in the source. -/
def OnNewLeader (podName : String) (id : String) (s : HostState) : HostState :=
  if id = podName then s
  else Printf ("Pod " ++ podName ++ " is a new leader") s

/-! ## The election configuration -/

/-- Go `v1.ObjectMeta`, the two fields `main` sets. -/
structure ObjectMeta where
  Name : String
  Namespace : String
  deriving DecidableEq, Repr

/-- Go `resourcelock.ResourceLockConfig`, the field `main` sets. -/
structure ResourceLockConfig where
  Identity : String
  deriving DecidableEq, Repr

/-- Go `resourcelock.LeaseLock`; `CL` is the type of the coordination client. -/
structure LeaseLock (CL : Type) where
  LeaseMeta : ObjectMeta
  Client : CL
  LockConfig : ResourceLockConfig

/-- Go `leaderelection.LeaderCallbacks`, as state transformers. -/
structure LeaderCallbacks where
  OnStartedLeading : HostState → HostState
  OnStoppedLeading : HostState → HostState
  OnNewLeader : String → HostState → HostState

/-- Go `leaderelection.LeaderElectionConfig`, the fields `main` sets. -/
structure LeaderElectionConfig (CL : Type) where
  Lock : LeaseLock CL
  ReleaseOnCancel : Bool
  LeaseDuration : Int
  RenewDeadline : Int
  RetryPeriod : Int
  Callbacks : LeaderCallbacks

/-- The composite literal passed to `leaderelection.RunOrDie` (lines 41-76). -/
def electionConfig {CL : Type} (podName : String) (client : CL) :
    LeaderElectionConfig CL :=
  { Lock :=
      { LeaseMeta := { Name := "lease-name", Namespace := "lease-namespace" }
        Client := client
        LockConfig := { Identity := podName } }
    ReleaseOnCancel := true
    LeaseDuration := 15 * Second
    RenewDeadline := 10 * Second
    RetryPeriod := 2 * Second
    Callbacks :=
      { OnStartedLeading := OnStartedLeading podName
        OnStoppedLeading := OnStoppedLeading podName
        OnNewLeader := OnNewLeader podName } }

/-! ## `main` -/

/-- What `main` reads from outside: the process environment and the results
of the three client-go calls.  `CC`, `CS`, `CL` are the types of the cluster
configuration, the client set and the coordination client. -/
structure Host (CC CS CL : Type) where
  environ : String → Option String
  InClusterConfig : Except String CC
  NewForConfig : CC → Except String CS
  CoordinationV1 : CS → CL

/-- The statements the main goroutine executes, in order. -/
inductive MainStep (CL : Type) where
  | logPrint (msg : String)
  | withCancel
  | goRunOrDie (cfg : LeaderElectionConfig CL)
  | cancel
  | ret

/-- Function `main` (lines 17-78): the steps of the main goroutine.  An error
of either client-go call is logged and `main` returns; otherwise the context
is created, `cancel` is deferred, the election goroutine is started, and the
function body ends, which runs the deferred `cancel` and returns. -/
def main {CC CS CL : Type} (h : Host CC CS CL) : List (MainStep CL) :=
  let podName := Getenv h.environ "POD_NAME"
  match h.InClusterConfig with
  | .error err => [.logPrint err, .ret]
  | .ok clusterConfig =>
    match h.NewForConfig clusterConfig with
    | .error err => [.logPrint err, .ret]
    | .ok clusterClientSet =>
      [.withCancel,
       .goRunOrDie (electionConfig podName (h.CoordinationV1 clusterClientSet)),
       .cancel,
       .ret]

/-- The configuration of the first election `main` starts, if any. -/
def launched {CL : Type} : List (MainStep CL) → Option (LeaderElectionConfig CL)
  | [] => none
  | .goRunOrDie cfg :: _ => some cfg
  | _ :: rest => launched rest

/-- A host inside a cluster: both client-go calls succeed. -/
def clusterHost (environ : String → Option String) : Host Unit Unit Unit :=
  { environ := environ
    InClusterConfig := .ok ()
    NewForConfig := fun _ => .ok ()
    CoordinationV1 := fun _ => () }

/-- An environment with `POD_NAME` set to `name` and nothing else. -/
def podEnv (name : String) : String → Option String :=
  fun key => if key = "POD_NAME" then some name else none

/-- The empty environment. -/
def noEnv : String → Option String := fun _ => none

/-! ## Sequences of callback invocations -/

/-- One invocation of a registered callback by the coordinator. -/
inductive Callback where
  | started
  | stopped
  | newLeader (id : String)
  deriving DecidableEq, Repr

/-- Is this one of the two role callbacks (`OnStartedLeading`,
`OnStoppedLeading`)? -/
def Callback.isRole : Callback → Bool
  | .started => true
  | .stopped => true
  | .newLeader _ => false

/-- Run one callback of the registered set on the host state. -/
def invoke (cbs : LeaderCallbacks) : Callback → HostState → HostState
  | .started, s => cbs.OnStartedLeading s
  | .stopped, s => cbs.OnStoppedLeading s
  | .newLeader id, s => cbs.OnNewLeader id s

/-- Run a finite sequence of callback invocations, oldest first. -/
def invokeAll (cbs : LeaderCallbacks) (calls : List Callback) (s : HostState) :
    HostState :=
  calls.foldl (fun st c => invoke cbs c st) s

/-- The most recent role callback of a sequence given oldest first. -/
def mostRecentRole (calls : List Callback) : Option Callback :=
  calls.reverse.find? Callback.isRole

/-- The flag value that the most recent role callback stands for. -/
def roleFlag : Option Callback → Int
  | some .started => 1
  | _ => 0

/-! ## The main goroutine next to the election goroutine -/

/-- Whose turn it is: the main goroutine executes its next statement, or the
election goroutine runs to the end of `RunOrDie`. -/
inductive Turn where
  | main
  | electionReturns
  deriving DecidableEq, Repr

/-- The process as seen from outside. -/
structure Proc (CL : Type) where
  rest : List (MainStep CL)
  started : Bool
  cancelled : Bool
  finished : Bool
  exited : Bool

/-- The process at the entry of `main`. -/
def Proc.start {CL : Type} (steps : List (MainStep CL)) : Proc CL :=
  { rest := steps, started := false, cancelled := false, finished := false,
    exited := false }

/-- One turn.  Once `main` has returned the process is gone and nothing runs;
the election goroutine can only finish after the `go` statement started it.
No statement of `main` waits for the election goroutine. -/
def Proc.step {CL : Type} (p : Proc CL) : Turn → Proc CL
  | .main =>
    if p.exited then p else
    match p.rest with
    | [] => p
    | .goRunOrDie _ :: rest => { p with rest := rest, started := true }
    | .cancel :: rest => { p with rest := rest, cancelled := true }
    | .ret :: _ => { p with rest := [], exited := true }
    | .logPrint _ :: rest => { p with rest := rest }
    | .withCancel :: rest => { p with rest := rest }
  | .electionReturns =>
    if p.exited then p
    else if p.started then { p with finished := true }
    else p

/-- Run a schedule of turns. -/
def Proc.run {CL : Type} (p : Proc CL) (turns : List Turn) : Proc CL :=
  turns.foldl Proc.step p

/-! ## Timing engine of the coordinator -/

/-- Modelled from the spec: the shared lease record of the coordinator
(section 3), which is library code; times are in nanoseconds like
`time.Duration`. -/
structure LeaseRecord where
  holderIdentity : String
  leaseDurationSeconds : Int
  acquireTime : Int
  renewTime : Int
  transitions : Nat
  deriving DecidableEq, Repr

/-- Modelled from the spec: `isExpired` of the coordinator's timing engine
(section 4.2), `now - record.renewTime > leaseDuration`. -/
def isExpired {CL : Type} (cfg : LeaderElectionConfig CL) (record : LeaseRecord)
    (now : Int) : Bool :=
  decide (now - record.renewTime > cfg.LeaseDuration)

/-- Modelled from the spec: `shouldAttemptAcquire` of the coordinator's timing
engine (section 4.2), `record.holderIdentity == "" or isExpired(record, now)`. -/
def shouldAttemptAcquire {CL : Type} (cfg : LeaderElectionConfig CL)
    (record : LeaseRecord) (now : Int) : Bool :=
  record.holderIdentity == "" || isExpired cfg record now

/-- Modelled from the spec: `renewalDeadlineMissed` of the coordinator's timing
engine (section 4.2), `now - lastSuccessfulRenew > renewDeadline`. -/
def renewalDeadlineMissed {CL : Type} (cfg : LeaderElectionConfig CL)
    (lastSuccessfulRenew now : Int) : Bool :=
  decide (now - lastSuccessfulRenew > cfg.RenewDeadline)

/-- Modelled from the spec: the coordinator's startup validation of the
durations (sections 4.2, 6 and 7): a configuration is rejected unless
`0 < retryPeriod < renewDeadline < leaseDuration`. -/
def validateDurations {CL : Type} (cfg : LeaderElectionConfig CL) :
    Except String Unit :=
  if cfg.RetryPeriod ≤ 0 then .error "retryPeriod must be positive"
  else if cfg.RenewDeadline ≤ cfg.RetryPeriod then
    .error "renewDeadline must be greater than retryPeriod"
  else if cfg.LeaseDuration ≤ cfg.RenewDeadline then
    .error "leaseDuration must be greater than renewDeadline"
  else .ok ()

/-- The record of the scenario of section 8 after the renewal at t = 5 s:
holder A, one transition, acquired at 0. -/
def scenarioRecord : LeaseRecord :=
  { holderIdentity := "A", leaseDurationSeconds := 15, acquireTime := 0,
    renewTime := 5 * Second, transitions := 1 }

/-- The k-th poll of a challenger that polls every `retryPeriod` from t = 0. -/
def pollTime {CL : Type} (cfg : LeaderElectionConfig CL) (k : Nat) : Int :=
  (k : Int) * cfg.RetryPeriod

/-! ## Shared lemmas -/

theorem main_of_cluster {CC CS CL : Type} (h : Host CC CS CL) (cc : CC) (cs : CS)
    (hcc : h.InClusterConfig = .ok cc) (hcs : h.NewForConfig cc = .ok cs) :
    main h =
      [.withCancel,
       .goRunOrDie (electionConfig (Getenv h.environ "POD_NAME") (h.CoordinationV1 cs)),
       .cancel, .ret] := by
  simp [main, hcc, hcs]

theorem launched_main {CC CS CL : Type} (h : Host CC CS CL)
    (cfg : LeaderElectionConfig CL) (hl : launched (main h) = some cfg) :
    ∃ client : CL, cfg = electionConfig (Getenv h.environ "POD_NAME") client := by
  unfold main at hl
  cases hcc : h.InClusterConfig with
  | error e => simp [hcc, launched] at hl
  | ok cc =>
    cases hcs : h.NewForConfig cc with
    | error e => simp [hcc, hcs, launched] at hl
    | ok cs =>
      simp [hcc, hcs, launched] at hl
      exact ⟨_, hl.symm⟩

theorem invokeAll_snoc (cbs : LeaderCallbacks) (calls : List Callback) (c : Callback)
    (s : HostState) :
    invokeAll cbs (calls ++ [c]) s = invoke cbs c (invokeAll cbs calls s) := by
  simp [invokeAll, List.foldl_append]

theorem mostRecentRole_snoc (calls : List Callback) (c : Callback) :
    mostRecentRole (calls ++ [c]) = if c.isRole then some c else mostRecentRole calls := by
  simp [mostRecentRole, List.find?_cons]
  cases c.isRole <;> simp

theorem leader_invokeAll {CL : Type} (podName : String) (client : CL)
    (calls : List Callback) :
    (invokeAll (electionConfig podName client).Callbacks calls initialState).leader =
      roleFlag (mostRecentRole calls) := by
  induction calls using List.reverseRecOn with
  | nil => rfl
  | append_singleton calls c ih =>
    rw [invokeAll_snoc, mostRecentRole_snoc]
    cases c with
    | started => rfl
    | stopped => rfl
    | newLeader id =>
      simp only [Callback.isRole, invoke, electionConfig, OnNewLeader]
      split
      · simpa [electionConfig] using ih
      · simpa [electionConfig, Printf] using ih

theorem roleFlag_eq_one (r : Option Callback) :
    roleFlag r = 1 ↔ r = some Callback.started := by
  cases r with
  | none => simp [roleFlag]
  | some c => cases c <;> simp [roleFlag]

theorem roleFlag_zero_or_one (r : Option Callback) : roleFlag r = 0 ∨ roleFlag r = 1 := by
  cases r with
  | none => simp [roleFlag]
  | some c => cases c <;> simp [roleFlag]

theorem Proc.run_exited {CL : Type} (p : Proc CL) (hp : p.exited = true)
    (turns : List Turn) : p.run turns = p := by
  induction turns with
  | nil => rfl
  | cons t ts ih =>
    have hstep : p.step t = p := by
      cases t <;> simp [Proc.step, hp]
    simpa [Proc.run, List.foldl_cons, hstep] using ih

/-! ## The claims -/

/-- C1: whenever both client-go calls succeed, `main` starts the election with
a configuration whose identity is the value of `POD_NAME`, whose durations are
15 s, 10 s and 2 s, with release on cancel, on lease "lease-name" in namespace
"lease-namespace"; and any two runs of `main` that agree on `POD_NAME` agree on
all of these fields. -/
theorem main_config_exact {CC CS CL : Type} (h : Host CC CS CL) (cc : CC) (cs : CS)
    (hcc : h.InClusterConfig = .ok cc) (hcs : h.NewForConfig cc = .ok cs) :
    ∃ cfg, launched (main h) = some cfg ∧
      cfg.Lock.LockConfig.Identity = Getenv h.environ "POD_NAME" ∧
      cfg.LeaseDuration = 15 * Second ∧
      cfg.RenewDeadline = 10 * Second ∧
      cfg.RetryPeriod = 2 * Second ∧
      Second = 1000000000 ∧
      cfg.ReleaseOnCancel = true ∧
      cfg.Lock.LeaseMeta.Name = "lease-name" ∧
      cfg.Lock.LeaseMeta.Namespace = "lease-namespace" ∧
      ∀ {CC2 CS2 CL2 : Type} (h2 : Host CC2 CS2 CL2) (cfg2 : LeaderElectionConfig CL2),
        launched (main h2) = some cfg2 →
        Getenv h2.environ "POD_NAME" = Getenv h.environ "POD_NAME" →
        cfg2.Lock.LockConfig.Identity = cfg.Lock.LockConfig.Identity ∧
        cfg2.LeaseDuration = cfg.LeaseDuration ∧
        cfg2.RenewDeadline = cfg.RenewDeadline ∧
        cfg2.RetryPeriod = cfg.RetryPeriod ∧
        cfg2.ReleaseOnCancel = cfg.ReleaseOnCancel ∧
        cfg2.Lock.LeaseMeta = cfg.Lock.LeaseMeta := by
  refine ⟨electionConfig (Getenv h.environ "POD_NAME") (h.CoordinationV1 cs), ?_,
    rfl, rfl, rfl, rfl, rfl, rfl, rfl, rfl, ?_⟩
  · rw [main_of_cluster h cc cs hcc hcs]; rfl
  · intro CC2 CS2 CL2 h2 cfg2 hl2 henv
    obtain ⟨client2, rfl⟩ := launched_main h2 cfg2 hl2
    simp [electionConfig, henv]

theorem main_config_exact_witness :
    ∃ cfg, launched (main (clusterHost (podEnv "pod-a"))) = some cfg ∧
      cfg.Lock.LockConfig.Identity = Getenv (podEnv "pod-a") "POD_NAME" ∧
      cfg.LeaseDuration = 15 * Second ∧
      cfg.RenewDeadline = 10 * Second ∧
      cfg.RetryPeriod = 2 * Second ∧
      Second = 1000000000 ∧
      cfg.ReleaseOnCancel = true ∧
      cfg.Lock.LeaseMeta.Name = "lease-name" ∧
      cfg.Lock.LeaseMeta.Namespace = "lease-namespace" ∧
      ∀ {CC2 CS2 CL2 : Type} (h2 : Host CC2 CS2 CL2) (cfg2 : LeaderElectionConfig CL2),
        launched (main h2) = some cfg2 →
        Getenv h2.environ "POD_NAME" = Getenv (podEnv "pod-a") "POD_NAME" →
        cfg2.Lock.LockConfig.Identity = cfg.Lock.LockConfig.Identity ∧
        cfg2.LeaseDuration = cfg.LeaseDuration ∧
        cfg2.RenewDeadline = cfg.RenewDeadline ∧
        cfg2.RetryPeriod = cfg.RetryPeriod ∧
        cfg2.ReleaseOnCancel = cfg.ReleaseOnCancel ∧
        cfg2.Lock.LeaseMeta = cfg.Lock.LeaseMeta :=
  main_config_exact (clusterHost (podEnv "pod-a")) () () rfl rfl

/-- C2: the durations of every configuration `main` starts an election with
satisfy 0 < retryPeriod < renewDeadline < leaseDuration, being 2 s, 10 s and
15 s, and the startup validation of durations accepts them. -/
theorem main_durations_valid {CC CS CL : Type} (h : Host CC CS CL)
    (cfg : LeaderElectionConfig CL) (hl : launched (main h) = some cfg) :
    0 < cfg.RetryPeriod ∧ cfg.RetryPeriod < cfg.RenewDeadline ∧
      cfg.RenewDeadline < cfg.LeaseDuration ∧
      cfg.RetryPeriod = 2 * Second ∧ cfg.RenewDeadline = 10 * Second ∧
      cfg.LeaseDuration = 15 * Second ∧
      validateDurations cfg = .ok () := by
  obtain ⟨client, rfl⟩ := launched_main h cfg hl
  refine ⟨?_, ?_, ?_, rfl, rfl, rfl, ?_⟩ <;>
    simp [validateDurations, electionConfig, Second]

theorem main_durations_valid_witness :
    0 < (electionConfig "pod-a" ()).RetryPeriod ∧
      (electionConfig "pod-a" ()).RetryPeriod < (electionConfig "pod-a" ()).RenewDeadline ∧
      (electionConfig "pod-a" ()).RenewDeadline < (electionConfig "pod-a" ()).LeaseDuration ∧
      (electionConfig "pod-a" ()).RetryPeriod = 2 * Second ∧
      (electionConfig "pod-a" ()).RenewDeadline = 10 * Second ∧
      (electionConfig "pod-a" ()).LeaseDuration = 15 * Second ∧
      validateDurations (electionConfig "pod-a" ()) = .ok () :=
  main_durations_valid (clusterHost (podEnv "pod-a")) (electionConfig "pod-a" ()) rfl

/-- C3: under the durations `main` configures, an expired record implies a
missed renewal deadline for the same renew time, and in the window
r + 10 s < now ≤ r + 15 s (for instance at r + 12 s) the deadline is missed
while the record is not yet expired. -/
theorem demotes_before_takeover {CC CS CL : Type} (h : Host CC CS CL)
    (cfg : LeaderElectionConfig CL) (hl : launched (main h) = some cfg) :
    (∀ (record : LeaseRecord) (now : Int),
        isExpired cfg record now = true →
        renewalDeadlineMissed cfg record.renewTime now = true) ∧
      (∀ (record : LeaseRecord) (now : Int),
        record.renewTime + 10 * Second < now → now ≤ record.renewTime + 15 * Second →
        renewalDeadlineMissed cfg record.renewTime now = true ∧
          isExpired cfg record now = false) ∧
      (∀ record : LeaseRecord,
        renewalDeadlineMissed cfg record.renewTime (record.renewTime + 12 * Second) = true ∧
          isExpired cfg record (record.renewTime + 12 * Second) = false) := by
  obtain ⟨client, rfl⟩ := launched_main h cfg hl
  refine ⟨?_, ?_, ?_⟩
  · intro record now hexp
    simp only [isExpired, renewalDeadlineMissed, electionConfig, Second,
      decide_eq_true_eq] at hexp ⊢
    omega
  · intro record now h1 h2
    simp only [isExpired, renewalDeadlineMissed, electionConfig, Second,
      decide_eq_true_eq, decide_eq_false_iff_not] at h1 h2 ⊢
    omega
  · intro record
    simp only [isExpired, renewalDeadlineMissed, electionConfig, Second,
      decide_eq_true_eq, decide_eq_false_iff_not]
    omega

theorem demotes_before_takeover_witness :
    (∀ (record : LeaseRecord) (now : Int),
        isExpired (electionConfig "pod-a" ()) record now = true →
        renewalDeadlineMissed (electionConfig "pod-a" ()) record.renewTime now = true) ∧
      (∀ (record : LeaseRecord) (now : Int),
        record.renewTime + 10 * Second < now → now ≤ record.renewTime + 15 * Second →
        renewalDeadlineMissed (electionConfig "pod-a" ()) record.renewTime now = true ∧
          isExpired (electionConfig "pod-a" ()) record now = false) ∧
      (∀ record : LeaseRecord,
        renewalDeadlineMissed (electionConfig "pod-a" ()) record.renewTime
            (record.renewTime + 12 * Second) = true ∧
          isExpired (electionConfig "pod-a" ()) record
            (record.renewTime + 12 * Second) = false) :=
  demotes_before_takeover (clusterHost (podEnv "pod-a")) (electionConfig "pod-a" ()) rfl

/-- C4, as stated, fails: in the scenario (last successful renewal at 5 s) the
demotion trigger does not hold at t = 15 s = r + renewDeadline. -/
theorem renewalDeadlineMissed_false_at_deadline :
    (launched (main (clusterHost (podEnv "A")))).map
        (fun cfg => renewalDeadlineMissed cfg (5 * Second) (5 * Second + cfg.RenewDeadline))
      = some false ∧
    (launched (main (clusterHost (podEnv "A")))).map
        (fun cfg => renewalDeadlineMissed cfg (5 * Second) (15 * Second))
      = some false := by
  constructor <;> decide

/-- C4, amended: with the renewDeadline `main` configures, the demotion trigger
holds exactly when now > r + renewDeadline: it is false at r + renewDeadline
and true at every later instant; in the scenario (r = 5 s) it is false at 15 s
and true one nanosecond later and at 16 s. -/
theorem renewalDeadlineMissed_iff_after_deadline {CC CS CL : Type} (h : Host CC CS CL)
    (cfg : LeaderElectionConfig CL) (hl : launched (main h) = some cfg) :
    cfg.RenewDeadline = 10 * Second ∧
      (∀ r now : Int, renewalDeadlineMissed cfg r now = true ↔ r + cfg.RenewDeadline < now) ∧
      (∀ r : Int, renewalDeadlineMissed cfg r (r + cfg.RenewDeadline) = false) ∧
      (∀ r d : Int, 0 < d → renewalDeadlineMissed cfg r (r + cfg.RenewDeadline + d) = true) ∧
      renewalDeadlineMissed cfg (5 * Second) (15 * Second) = false ∧
      renewalDeadlineMissed cfg (5 * Second) (15 * Second + 1) = true ∧
      renewalDeadlineMissed cfg (5 * Second) (16 * Second) = true := by
  obtain ⟨client, rfl⟩ := launched_main h cfg hl
  refine ⟨rfl, ?_, ?_, ?_, rfl, rfl, rfl⟩
  · intro r now
    simp only [renewalDeadlineMissed, electionConfig, Second, decide_eq_true_eq]
    omega
  · intro r
    simp only [renewalDeadlineMissed, electionConfig, Second, decide_eq_false_iff_not]
    omega
  · intro r d hd
    simp only [renewalDeadlineMissed, electionConfig, Second, decide_eq_true_eq]
    omega

theorem renewalDeadlineMissed_iff_after_deadline_witness :
    (electionConfig "A" ()).RenewDeadline = 10 * Second ∧
      (∀ r now : Int, renewalDeadlineMissed (electionConfig "A" ()) r now = true ↔
        r + (electionConfig "A" ()).RenewDeadline < now) ∧
      (∀ r : Int, renewalDeadlineMissed (electionConfig "A" ()) r
        (r + (electionConfig "A" ()).RenewDeadline) = false) ∧
      (∀ r d : Int, 0 < d → renewalDeadlineMissed (electionConfig "A" ()) r
        (r + (electionConfig "A" ()).RenewDeadline + d) = true) ∧
      renewalDeadlineMissed (electionConfig "A" ()) (5 * Second) (15 * Second) = false ∧
      renewalDeadlineMissed (electionConfig "A" ()) (5 * Second) (15 * Second + 1) = true ∧
      renewalDeadlineMissed (electionConfig "A" ()) (5 * Second) (16 * Second) = true :=
  renewalDeadlineMissed_iff_after_deadline (clusterHost (podEnv "A"))
    (electionConfig "A" ()) rfl

/-- C5: with the durations `main` configures and the scenario record (holder A,
renewTime 5 s), `isExpired` holds exactly when now > 20 s, `shouldAttemptAcquire`
is false at every time up to and including 20 s, and for a challenger polling
every retryPeriod from 0 (polls at 0, 2, 4, ... s) it is true at the k-th poll
exactly when k ≥ 11, so the first such poll is the one at 22 s. -/
theorem scenario_first_acquire_tick {CC CS CL : Type} (h : Host CC CS CL)
    (cfg : LeaderElectionConfig CL) (hl : launched (main h) = some cfg) :
    (∀ now : Int, isExpired cfg scenarioRecord now = true ↔ 20 * Second < now) ∧
      (∀ now : Int, now ≤ 20 * Second → shouldAttemptAcquire cfg scenarioRecord now = false) ∧
      (∀ k : Nat, pollTime cfg k = 2 * (k : Int) * Second) ∧
      pollTime cfg 10 = 20 * Second ∧ pollTime cfg 11 = 22 * Second ∧
      shouldAttemptAcquire cfg scenarioRecord (20 * Second) = false ∧
      shouldAttemptAcquire cfg scenarioRecord (22 * Second) = true ∧
      (∀ k : Nat, shouldAttemptAcquire cfg scenarioRecord (pollTime cfg k) = true ↔ 11 ≤ k) := by
  obtain ⟨client, rfl⟩ := launched_main h cfg hl
  have hholder : (scenarioRecord.holderIdentity == "") = false := by decide
  refine ⟨?_, ?_, ?_, rfl, rfl, rfl, rfl, ?_⟩
  · intro now
    simp only [isExpired, scenarioRecord, electionConfig, Second, decide_eq_true_eq]
    omega
  · intro now hnow
    simp only [shouldAttemptAcquire, hholder, Bool.false_or]
    simp only [isExpired, scenarioRecord, electionConfig, Second,
      decide_eq_false_iff_not] at hnow ⊢
    omega
  · intro k
    simp only [pollTime, electionConfig, Second]
    ring
  · intro k
    simp only [shouldAttemptAcquire, hholder, Bool.false_or]
    simp only [isExpired, pollTime, scenarioRecord, electionConfig, Second,
      decide_eq_true_eq]
    omega

theorem scenario_first_acquire_tick_witness :
    (∀ now : Int, isExpired (electionConfig "B" ()) scenarioRecord now = true ↔
        20 * Second < now) ∧
      (∀ now : Int, now ≤ 20 * Second →
        shouldAttemptAcquire (electionConfig "B" ()) scenarioRecord now = false) ∧
      (∀ k : Nat, pollTime (electionConfig "B" ()) k = 2 * (k : Int) * Second) ∧
      pollTime (electionConfig "B" ()) 10 = 20 * Second ∧
      pollTime (electionConfig "B" ()) 11 = 22 * Second ∧
      shouldAttemptAcquire (electionConfig "B" ()) scenarioRecord (20 * Second) = false ∧
      shouldAttemptAcquire (electionConfig "B" ()) scenarioRecord (22 * Second) = true ∧
      (∀ k : Nat, shouldAttemptAcquire (electionConfig "B" ()) scenarioRecord
        (pollTime (electionConfig "B" ()) k) = true ↔ 11 ≤ k) :=
  scenario_first_acquire_tick (clusterHost (podEnv "B")) (electionConfig "B" ()) rfl

/-- C6: for the callbacks of every configuration `main` starts an election
with, `OnNewLeader id` with `id` equal to the own identity (the value of
`POD_NAME`) returns the host state unchanged: no log line, same leader flag. -/
theorem OnNewLeader_self_noop {CC CS CL : Type} (h : Host CC CS CL)
    (cfg : LeaderElectionConfig CL) (hl : launched (main h) = some cfg)
    (id : String) (hid : id = Getenv h.environ "POD_NAME") (s : HostState) :
    cfg.Lock.LockConfig.Identity = id ∧
      cfg.Callbacks.OnNewLeader id s = s ∧
      (cfg.Callbacks.OnNewLeader id s).logged = s.logged ∧
      (cfg.Callbacks.OnNewLeader id s).leader = s.leader := by
  obtain ⟨client, rfl⟩ := launched_main h cfg hl
  subst hid
  simp [electionConfig, OnNewLeader]

theorem OnNewLeader_self_noop_witness :
    (electionConfig "pod-a" ()).Lock.LockConfig.Identity = "pod-a" ∧
      (electionConfig "pod-a" ()).Callbacks.OnNewLeader "pod-a" initialState = initialState ∧
      ((electionConfig "pod-a" ()).Callbacks.OnNewLeader "pod-a" initialState).logged =
        initialState.logged ∧
      ((electionConfig "pod-a" ()).Callbacks.OnNewLeader "pod-a" initialState).leader =
        initialState.leader :=
  OnNewLeader_self_noop (clusterHost (podEnv "pod-a")) (electionConfig "pod-a" ()) rfl
    "pod-a" (by decide) initialState

/-- C7, as stated, fails: with `POD_NAME` unset, or set to the empty string,
and both client-go calls succeeding, `main` starts the election with the
identity "". -/
theorem main_hands_empty_identity :
    (launched (main (clusterHost noEnv))).map
        (fun cfg => cfg.Lock.LockConfig.Identity) = some "" ∧
    (launched (main (clusterHost (podEnv "")))).map
        (fun cfg => cfg.Lock.LockConfig.Identity) = some "" := by
  constructor <;> decide

/-- C7, amended: whenever both client-go calls succeed `main` starts the
election, whatever the environment, and the identity it hands over is the
value of `POD_NAME` unchecked: it is empty exactly when `POD_NAME` is unset or
set to the empty string, and non-empty exactly when `POD_NAME` is set to a
non-empty value. -/
theorem main_identity_is_POD_NAME {CC CS CL : Type} (h : Host CC CS CL) (cc : CC) (cs : CS)
    (hcc : h.InClusterConfig = .ok cc) (hcs : h.NewForConfig cc = .ok cs) :
    ∃ cfg, launched (main h) = some cfg ∧
      cfg.Lock.LockConfig.Identity = Getenv h.environ "POD_NAME" ∧
      (cfg.Lock.LockConfig.Identity = "" ↔
        h.environ "POD_NAME" = none ∨ h.environ "POD_NAME" = some "") ∧
      (cfg.Lock.LockConfig.Identity ≠ "" ↔
        ∃ v, h.environ "POD_NAME" = some v ∧ v ≠ "") := by
  refine ⟨electionConfig (Getenv h.environ "POD_NAME") (h.CoordinationV1 cs), ?_, rfl, ?_, ?_⟩
  · rw [main_of_cluster h cc cs hcc hcs]; rfl
  · cases hv : h.environ "POD_NAME" <;> simp [electionConfig, Getenv, hv]
  · cases hv : h.environ "POD_NAME" <;> simp [electionConfig, Getenv, hv]

theorem main_identity_is_POD_NAME_witness :
    ∃ cfg, launched (main (clusterHost (podEnv "pod-a"))) = some cfg ∧
      cfg.Lock.LockConfig.Identity = Getenv (podEnv "pod-a") "POD_NAME" ∧
      (cfg.Lock.LockConfig.Identity = "" ↔
        podEnv "pod-a" "POD_NAME" = none ∨ podEnv "pod-a" "POD_NAME" = some "") ∧
      (cfg.Lock.LockConfig.Identity ≠ "" ↔
        ∃ v, podEnv "pod-a" "POD_NAME" = some v ∧ v ≠ "") :=
  main_identity_is_POD_NAME (clusterHost (podEnv "pod-a")) () () rfl rfl

/-- C8, evaluated on the code: inside a cluster the main goroutine runs
`WithCancel`, the `go` statement, the deferred `cancel` and its return in four
turns of its own, none of which waits; after them the election has been
started and cancelled, `main` has returned, the election routine has not
finished, and no later turn lets it finish. -/
theorem main_returns_before_election_finishes :
    (main (clusterHost (podEnv "pod-a"))).length = 4 ∧
    ((Proc.start (main (clusterHost (podEnv "pod-a")))).run
        [.main, .main]).started = true ∧
    ((Proc.start (main (clusterHost (podEnv "pod-a")))).run
        [.main, .main, .main]).cancelled = true ∧
    ((Proc.start (main (clusterHost (podEnv "pod-a")))).run
        [.main, .main, .main]).finished = false ∧
    ((Proc.start (main (clusterHost (podEnv "pod-a")))).run
        [.main, .main, .main, .main]).exited = true ∧
    (∀ turns : List Turn,
      ((Proc.start (main (clusterHost (podEnv "pod-a")))).run
        ([.main, .main, .main, .main] ++ turns)).finished = false) := by
  refine ⟨rfl, rfl, rfl, rfl, rfl, ?_⟩
  intro turns
  have hsplit : (Proc.start (main (clusterHost (podEnv "pod-a")))).run
      ([.main, .main, .main, .main] ++ turns) =
      ((Proc.start (main (clusterHost (podEnv "pod-a")))).run
        [.main, .main, .main, .main]).run turns := by
    simp [Proc.run, List.foldl_append]
  rw [hsplit, Proc.run_exited _ rfl]
  rfl

/-- C9: the leader flag starts at 0; after every finite sequence of callbacks
of a configuration `main` starts an election with, run from the initial state,
it is 0 or 1 and is 1 exactly when the most recent role callback was
`OnStartedLeading`; `OnStartedLeading` enters `DoLeaderStuff` with the flag
already 1; and `OnNewLeader` leaves the flag as it was. -/
theorem leader_flag_tracks_role {CC CS CL : Type} (h : Host CC CS CL)
    (cfg : LeaderElectionConfig CL) (hl : launched (main h) = some cfg) :
    initialState.leader = 0 ∧
      (∀ calls : List Callback,
        ((invokeAll cfg.Callbacks calls initialState).leader = 0 ∨
          (invokeAll cfg.Callbacks calls initialState).leader = 1) ∧
        ((invokeAll cfg.Callbacks calls initialState).leader = 1 ↔
          mostRecentRole calls = some Callback.started)) ∧
      (∀ s : HostState,
        (cfg.Callbacks.OnStartedLeading s).leaderStuff = s.leaderStuff ++ [1] ∧
        (cfg.Callbacks.OnStartedLeading s).leader = 1) ∧
      (∀ s : HostState, (cfg.Callbacks.OnStoppedLeading s).leader = 0) ∧
      (∀ (id : String) (s : HostState), (cfg.Callbacks.OnNewLeader id s).leader = s.leader) := by
  obtain ⟨client, rfl⟩ := launched_main h cfg hl
  refine ⟨rfl, ?_, ?_, ?_, ?_⟩
  · intro calls
    rw [leader_invokeAll]
    exact ⟨roleFlag_zero_or_one _, roleFlag_eq_one _⟩
  · intro s
    exact ⟨rfl, rfl⟩
  · intro s
    rfl
  · intro id s
    simp only [electionConfig, OnNewLeader]
    split
    · rfl
    · rfl

theorem leader_flag_tracks_role_witness :
    initialState.leader = 0 ∧
      (∀ calls : List Callback,
        ((invokeAll (electionConfig "pod-a" ()).Callbacks calls initialState).leader = 0 ∨
          (invokeAll (electionConfig "pod-a" ()).Callbacks calls initialState).leader = 1) ∧
        ((invokeAll (electionConfig "pod-a" ()).Callbacks calls initialState).leader = 1 ↔
          mostRecentRole calls = some Callback.started)) ∧
      (∀ s : HostState,
        ((electionConfig "pod-a" ()).Callbacks.OnStartedLeading s).leaderStuff =
          s.leaderStuff ++ [1] ∧
        ((electionConfig "pod-a" ()).Callbacks.OnStartedLeading s).leader = 1) ∧
      (∀ s : HostState, ((electionConfig "pod-a" ()).Callbacks.OnStoppedLeading s).leader = 0) ∧
      (∀ (id : String) (s : HostState),
        ((electionConfig "pod-a" ()).Callbacks.OnNewLeader id s).leader = s.leader) :=
  leader_flag_tracks_role (clusterHost (podEnv "pod-a")) (electionConfig "pod-a" ()) rfl

/-- C10, evaluated on the code: for an `id` other than the own identity
`OnNewLeader id` emits exactly one line, and that line names the own pod, not
`id`; with `POD_NAME` = "pod-a" and `id` = "pod-b" the line is
"Pod pod-a is a new leader". -/
theorem OnNewLeader_logs_own_name :
    (∀ (podName id : String) (s : HostState), (id == podName) = false →
      (OnNewLeader podName id s).logged =
        s.logged ++ ["Pod " ++ podName ++ " is a new leader"]) ∧
    (launched (main (clusterHost (podEnv "pod-a")))).map
        (fun cfg => (cfg.Callbacks.OnNewLeader "pod-b" initialState).logged)
      = some ["Pod pod-a is a new leader"] ∧
    (["Pod pod-a is a new leader"] == ["Pod " ++ "pod-b" ++ " is a new leader"]) = false := by
  refine ⟨?_, by decide, by decide⟩
  intro podName id s hne
  have hne2 : id ≠ podName := by simpa using hne
  simp [OnNewLeader, hne2, Printf]

end LeaderGo
